import Mathlib

/-!
Verification of the tidal-dd sync service (`app.py`) against its
natural-language specification.

The development shallowly embeds the program:

* Python `datetime.date` values become the `PDate` structure together with
  `PDate.isoformat` (the `%04d-%02d-%02d` rendering used by
  `date.isoformat()`), `parse10` (the behaviour of `date.fromisoformat` on a
  ten-character string) and `dateOrd` (a day count used to compare dates and
  to subtract a `timedelta`, mirroring `date.__lt__` / `date.__sub__`).
* Fallible provider calls (network requests made through `tidalapi`) become
  `PyRes` values carried by the state: a call either returns a value or
  raises an exception with a message, exactly as the `try`/`except` blocks of
  `perform_sync` observe them.
* The provider-visible state (mix categories, the user's playlists) becomes
  the `Provider` structure; `perform_sync` threads it explicitly and also
  produces the list of provider calls it performed (`ProviderCall`), the
  value it returns, and the status record persisted by `save_sync_status`.

Definitions follow the source `app.py`; the one spec-side definition,
`specDeletionEligible`, transcribes the specification's wording of the
retention-deletion criterion so that the code's scan can be proved to refine
it.
-/

namespace TidalDD

/-- Result of a Python call that can raise: either a returned value or an
exception carrying `str(e)`. -/
inductive PyRes (α : Type) where
  | ok (a : α)
  | exn (msg : String)
deriving DecidableEq, Repr

/-! ### Dates

`PDate` models `datetime.date`.  Python enforces `1 ≤ year ≤ 9999`,
`1 ≤ month ≤ 12`, `1 ≤ day ≤ days_in_month`; we keep the fields unconstrained
and carry validity as the Boolean `PDate.valid` where needed. -/

structure PDate where
  year : Nat
  month : Nat
  day : Nat
deriving DecidableEq, Repr

/-- Gregorian leap-year rule, as in `calendar.isleap` / `datetime`. -/
def isLeap (y : Nat) : Bool :=
  y % 4 == 0 && (y % 100 != 0 || y % 400 == 0)

/-- Number of days in a month, as in `datetime`. -/
def daysInMonth (y m : Nat) : Nat :=
  if m = 2 then (if isLeap y then 29 else 28)
  else if m = 4 ∨ m = 6 ∨ m = 9 ∨ m = 11 then 30
  else 31

/-- The range/consistency checks `datetime.date` enforces on construction. -/
def PDate.valid (d : PDate) : Bool :=
  1 ≤ d.year && d.year ≤ 9999 && 1 ≤ d.month && d.month ≤ 12 &&
  1 ≤ d.day && d.day ≤ daysInMonth d.year d.month

/-- A day count for valid dates (days since 0000-03-01, proleptic Gregorian;
the standard "days from civil" computation).  It differs from Python's
`date.toordinal` by a fixed offset, so date comparison and subtraction of a
`timedelta(days = n)` translate exactly. -/
def dateOrd (dt : PDate) : Nat :=
  let y := if dt.month ≤ 2 then dt.year - 1 else dt.year
  let era := y / 400
  let yoe := y % 400
  let mp := (dt.month + 9) % 12
  let doy := (153 * mp + 2) / 5 + (dt.day - 1)
  let doe := yoe * 365 + yoe / 4 - yoe / 100 + doy
  era * 146097 + doe

/-- The decimal digit character for `n < 10`. -/
def digitChar (n : Nat) : Char := Char.ofNat (48 + n)

/-- The numeric value of an ASCII digit character, `none` otherwise
(the digit test `fromisoformat` applies to each position). -/
def digitVal (c : Char) : Option Nat :=
  if c.isDigit then some (c.toNat - 48) else none

/-- `%02d` rendering of `n < 100`, as a two-character list. -/
def pad2 (n : Nat) : List Char := [digitChar (n / 10), digitChar (n % 10)]

/-- `%04d` rendering of `n < 10000`, as a four-character list. -/
def pad4 (n : Nat) : List Char :=
  [digitChar (n / 1000 % 10), digitChar (n / 100 % 10),
   digitChar (n / 10 % 10), digitChar (n % 10)]

/-- `date.isoformat()`: the `"%04d-%02d-%02d"` rendering of a (valid) date. -/
def PDate.isoformat (dt : PDate) : String :=
  ⟨pad4 dt.year ++ '-' :: pad2 dt.month ++ '-' :: pad2 dt.day⟩

/-- `date.fromisoformat` applied to a ten-character string (the code always
slices to `name[:10]` first): requires the exact `YYYY-MM-DD` shape with
ASCII digits and a constructible date, otherwise raises `ValueError`
(here: `none`).  Lists that do not have exactly ten characters also fail. -/
def parse10 (cs : List Char) : Option PDate :=
  match cs with
  | [c0, c1, c2, c3, c4, c5, c6, c7, c8, c9] =>
    if c4 = '-' ∧ c7 = '-' then
      match digitVal c0, digitVal c1, digitVal c2, digitVal c3,
            digitVal c5, digitVal c6, digitVal c8, digitVal c9 with
      | some y3, some y2, some y1, some y0,
        some m1, some m0, some d1, some d0 =>
        let y := y3 * 1000 + y2 * 100 + y1 * 10 + y0
        let m := m1 * 10 + m0
        let d := d1 * 10 + d0
        if 1 ≤ y ∧ 1 ≤ m ∧ m ≤ 12 ∧ 1 ≤ d ∧ d ≤ daysInMonth y m then
          some ⟨y, m, d⟩
        else none
      | _, _, _, _, _, _, _, _ => none
    else none
  | _ => none

/-! ### Strings -/

/-- Whether `n` occurs as a contiguous sublist of the second argument. -/
def listContainsSub (n : List Char) : List Char → Bool
  | [] => n.isEmpty
  | c :: rest => List.isPrefixOf n (c :: rest) || listContainsSub n rest

/-- Python's substring test `needle in hay`. -/
def strContains (hay needle : String) : Bool :=
  listContainsSub needle.toList hay.toList

/-! ### Dictionaries

Python `dict` operations used by the code (`d[k] = v`, `d.get(k)`),
modelled on association lists: assignment replaces the binding of an
existing key in place, otherwise appends. -/

/-- `d.get(k)` (equivalently `d[k]` when present). -/
def dictGet {α : Type} (d : List (String × α)) (k : String) : Option α :=
  match d with
  | [] => none
  | (k', v) :: rest => if k' = k then some v else dictGet rest k

/-- `d[k] = v`. -/
def dictSet {α : Type} (d : List (String × α)) (k : String) (v : α) :
    List (String × α) :=
  match d with
  | [] => [(k, v)]
  | (k', v') :: rest =>
    if k' = k then (k, v) :: rest else (k', v') :: dictSet rest k v

/-- `k in d`. -/
def dictHas {α : Type} (d : List (String × α)) (k : String) : Bool :=
  (dictGet d k).isSome

/-! ### Provider-visible data model

The pieces of `tidalapi` state that `perform_sync` observes.  Optional
fields model the `hasattr`/`getattr` probes of the source; `PyRes` fields
model the outcome the provider would give to the corresponding network
call if it were made while processing that object (the calls can raise, and
`perform_sync` catches the exception). -/

/-- One item of a mix category page (`session.mixes().categories[i].items[j]`).
`id`/`title` are `none` when the attribute is absent (`hasattr`/`getattr`
default paths).  `fetchTracks` is the outcome of `mix.items()`;
`createResult`, `addResult`, `favoriteResult` are the outcomes of
`session.user.create_playlist`, `playlist.add` and
`session.user.favorites.add_playlist` while processing this mix. -/
structure MixItem where
  id : Option String
  title : Option String
  fetchTracks : PyRes (List Nat)
  createResult : PyRes Unit
  addResult : PyRes Unit
  favoriteResult : PyRes Unit
deriving DecidableEq, Repr

/-- One category of the mixes page; `items = none` models a category object
without an `items` attribute (`hasattr(cat, "items")` false). -/
structure Category where
  items : Option (List MixItem)
deriving DecidableEq, Repr

/-- One playlist of `session.user.playlists()`.  `description = none` models
a missing/`None` description (`getattr(pl, 'description', '') or ''`).
`deleteResult` is the outcome `pl.delete()` would have. -/
structure Playlist where
  name : String
  description : Option String
  deleteResult : PyRes Unit
deriving DecidableEq, Repr

/-- The provider-visible session state.  `sessionValid` is whether
`get_session()` yields a working session (tokens present and
`load_oauth_session` succeeding). -/
structure Provider where
  sessionValid : Bool
  categories : List Category
  playlists : List Playlist
deriving DecidableEq, Repr

/-- One entry of the `results` list built by `perform_sync`, one constructor
per dict shape appended by the source:
`{"mix_id": …, "error": "Not found"}`,
`{"mix": …, "playlist": …, "skipped": "Already exists"}`,
`{"mix": …, "playlist": …, "tracks": …, "success": True}`,
`{"mix_id": …, "error": str(e)}`. -/
inductive SyncResult where
  | notFound (mix_id : String)
  | skipped (mix : String) (playlist : String)
  | success (mix : String) (playlist : String) (tracks : Nat)
  | failed (mix_id : String) (error : String)
deriving DecidableEq, Repr

/-- Whether an entry is a `success` ("created") entry. -/
def SyncResult.isSuccess : SyncResult → Bool
  | .success _ _ _ => true
  | _ => false

/-- Whether an entry is a `skipped` entry. -/
def SyncResult.isSkipped : SyncResult → Bool
  | .skipped _ _ => true
  | _ => false

/-- A provider (network) call made by `perform_sync`, in order. -/
inductive ProviderCall where
  | resolveCatalog
  | listPlaylists
  | fetchTracks (mix_id : String)
  | createPlaylist (name : String)
  | addTracks (name : String)
  | favorite (name : String)
  | delete (name : String)
deriving DecidableEq, Repr

/-- The record `save_sync_status` writes to `SYNC_STATUS_FILE` (the
wall-clock `last_sync` timestamp is not modelled). -/
structure SyncStatus where
  trigger : String
  results : List SyncResult
  deleted_count : Nat
  error : Option String
deriving DecidableEq, Repr

/-- `save_sync_status(trigger, results, deleted, error)`. -/
def save_sync_status (trigger : String) (results : List SyncResult)
    (deleted : List String) (error : Option String) : SyncStatus :=
  { trigger := trigger, results := results,
    deleted_count := deleted.length, error := error }

/-- The value `perform_sync` returns: either `{"error": msg}` or
`{"results": results, "deleted": deleted}`. -/
inductive RunRet where
  | err (msg : String)
  | ok (results : List SyncResult) (deleted : List String)
deriving DecidableEq, Repr

/-- Everything one call of `perform_sync` produces: its return value, the
status record it persisted, the provider playlist state it left behind and
the provider calls it made. -/
structure RunOutput where
  ret : RunRet
  status : SyncStatus
  playlists : List Playlist
  calls : List ProviderCall
deriving DecidableEq, Repr

/-! ### Mix catalog resolution (`app.py` lines 112-118) -/

/-- The `all_mixes` dict built from the categories page:
iterate categories in order, their items in order, skip items without an
`id`, and assign `all_mixes[item.id] = item`. -/
def resolveCatalog (cats : List Category) : List (String × MixItem) :=
  cats.foldl
    (fun acc cat =>
      match cat.items with
      | none => acc
      | some items =>
        items.foldl
          (fun acc item =>
            match item.id with
            | none => acc
            | some i => dictSet acc i item)
          acc)
    []

/-! ### Per-mix processing (`app.py` lines 126-145) -/

/-- What processing one selected mix id does (one iteration of the loop):
the result entry appended, the playlists created, and the provider calls
made.  `existing` is the (fixed) set of names fetched before the loop;
`todayStr` is `date.today().isoformat()`.  The loop body looks the mix up,
skips when the candidate name already exists, and otherwise runs
fetch-tracks / create / add / favorite, converting the first exception into
a `failed` entry. -/
structure MixStep where
  outcome : SyncResult
  created : List Playlist
  calls : List ProviderCall
deriving DecidableEq, Repr

/-- One iteration of the per-mix loop, for `mix_id`. -/
def syncOneMix (all : List (String × MixItem)) (existing : List String)
    (todayStr : String) (mix_id : String) : MixStep :=
  match dictGet all mix_id with
  | none => ⟨.notFound mix_id, [], []⟩
  | some mix =>
    let title := mix.title.getD "Mix"
    let name := todayStr ++ " " ++ title
    if name ∈ existing then
      ⟨.skipped title name, [], []⟩
    else
      match mix.fetchTracks with
      | .exn e => ⟨.failed mix_id e, [], [.fetchTracks mix_id]⟩
      | .ok tracks =>
        match mix.createResult with
        | .exn e =>
          ⟨.failed mix_id e, [],
           [.fetchTracks mix_id, .createPlaylist name]⟩
        | .ok _ =>
          let newPl : Playlist :=
            ⟨name, some "Auto-synced from Tidal", .ok ()⟩
          match mix.addResult with
          | .exn e =>
            ⟨.failed mix_id e, [newPl],
             [.fetchTracks mix_id, .createPlaylist name, .addTracks name]⟩
          | .ok _ =>
            match mix.favoriteResult with
            | .exn e =>
              ⟨.failed mix_id e, [newPl],
               [.fetchTracks mix_id, .createPlaylist name, .addTracks name,
                .favorite name]⟩
            | .ok _ =>
              ⟨.success title name tracks.length, [newPl],
               [.fetchTracks mix_id, .createPlaylist name, .addTracks name,
                .favorite name]⟩

/-- Accumulated outcome of the whole per-mix loop. -/
structure CreateOut where
  results : List SyncResult
  playlists : List Playlist
  calls : List ProviderCall
deriving DecidableEq, Repr

/-- The per-mix loop over `selected`, threading the accumulated results,
the playlist state (initially the pre-run playlists) and the call log.
`existing_names` is computed once before the loop and never updated inside
it, exactly as in the source. -/
def createPhase (all : List (String × MixItem)) (existing : List String)
    (todayStr : String) (pls0 : List Playlist) (selected : List String) :
    CreateOut :=
  selected.foldl
    (fun acc mix_id =>
      let st := syncOneMix all existing todayStr mix_id
      { results := acc.results ++ [st.outcome],
        playlists := acc.playlists ++ st.created,
        calls := acc.calls ++ st.calls })
    { results := [], playlists := pls0, calls := [] }

/-! ### Retention scan (`app.py` lines 147-162) -/

/-- The deletion test of the scan body: the name-shape guard
(`len(name) >= 10 and name[4] == '-' and name[7] == '-'`), then
`date.fromisoformat(name[:10])` (a `ValueError` is caught and the playlist
skipped), then `pl_date < cutoff and 'Auto-synced' in (getattr(pl,
'description', '') or '')`.  `cutoff` is the ordinal of
`date.today() - timedelta(days=retention)`. -/
def shouldDelete (cutoff : Int) (pl : Playlist) : Bool :=
  let cs := pl.name.toList
  if 10 ≤ cs.length ∧ cs.getD 4 ' ' = '-' ∧ cs.getD 7 ' ' = '-' then
    match parse10 (cs.take 10) with
    | some pd =>
      decide ((dateOrd pd : Int) < cutoff) &&
        strContains ((pl.description).getD "") "Auto-synced"
    | none => false
  else false

/-- Result of the retention scan: the playlists remaining, the names
deleted (in scan order), the delete calls made, and whether the scan was
aborted by an exception from `pl.delete()` (swallowed by the outer
`except`). -/
structure ScanOut where
  survivors : List Playlist
  deleted : List String
  calls : List ProviderCall
  aborted : Bool
deriving DecidableEq, Repr

/-- The retention scan over the freshly fetched playlist list.  A playlist
passing `shouldDelete` is deleted and its name recorded; if the delete call
raises, the outer `except Exception: pass` ends the whole scan, keeping
what was already deleted and leaving the rest untouched. -/
def retentionScan (cutoff : Int) : List Playlist → ScanOut
  | [] => ⟨[], [], [], false⟩
  | pl :: rest =>
    if shouldDelete cutoff pl then
      match pl.deleteResult with
      | .ok _ =>
        let s := retentionScan cutoff rest
        ⟨s.survivors, pl.name :: s.deleted, .delete pl.name :: s.calls,
         s.aborted⟩
      | .exn _ => ⟨pl :: rest, [], [.delete pl.name], true⟩
    else
      let s := retentionScan cutoff rest
      ⟨pl :: s.survivors, s.deleted, s.calls, s.aborted⟩

/-! ### The sync run (`perform_sync`, `app.py` lines 97-165) -/

/-- The `all_mixes` dict of a run. -/
def runCatalog (p : Provider) : List (String × MixItem) :=
  resolveCatalog p.categories

/-- `existing_names`: the names of the user's playlists, fetched once
before the loop. -/
def runExisting (p : Provider) : List String :=
  p.playlists.map (fun pl => pl.name)

/-- The whole per-mix loop of a run. -/
def runCreate (p : Provider) (selected : List String) (today : PDate) :
    CreateOut :=
  createPhase (runCatalog p) (runExisting p) today.isoformat
    p.playlists selected

/-- The ordinal of `cutoff = date.today() - timedelta(days=retention)`. -/
def runCutoff (today : PDate) (retention : Int) : Int :=
  (dateOrd today : Int) - retention

/-- `perform_sync(trigger)`.  `selected` and `retention` are the values the
source reads from the config file (`config.get("selected_mixes", [])` and
`config.get("retention_days", 7)`); `today` is `date.today()`. -/
def perform_sync (p : Provider) (selected : List String) (retention : Int)
    (today : PDate) (trigger : String) : RunOutput :=
  if p.sessionValid = false then
    { ret := .err "Not connected to Tidal",
      status := save_sync_status trigger [] [] (some "Not connected to Tidal"),
      playlists := p.playlists, calls := [] }
  else if selected = [] then
    { ret := .err "No mixes selected",
      status := save_sync_status trigger [] [] (some "No mixes selected"),
      playlists := p.playlists, calls := [] }
  else
    let cp := runCreate p selected today
    let sc := retentionScan (runCutoff today retention) cp.playlists
    { ret := .ok cp.results sc.deleted,
      status := save_sync_status trigger cp.results sc.deleted none,
      playlists := sc.survivors,
      calls := .resolveCatalog :: .listPlaylists :: cp.calls ++
        .listPlaylists :: sc.calls }

/-! ### Trigger surfaces (`app.py` lines 168-170, 544-551, 554-560) -/

/-- `run_scheduled_sync`, the APScheduler job: `perform_sync("scheduled")`. -/
def run_scheduled_sync (p : Provider) (selected : List String)
    (retention : Int) (today : PDate) : RunOutput :=
  perform_sync p selected retention today "scheduled"

/-- The `/cron/sync` endpoint: requires `CRON_SECRET` to be set and the
`key` query parameter to match it, else answers 401 without syncing
(`none`); otherwise `perform_sync("cron")`. -/
def cron_sync (cronSecret : Option String) (key : Option String)
    (p : Provider) (selected : List String) (retention : Int)
    (today : PDate) : Option RunOutput :=
  match cronSecret with
  | none => none
  | some ck => if key = some ck then
      some (perform_sync p selected retention today "cron")
    else none

/-- The `/sync` endpoint: behind the PIN-cookie gate (redirects when not
authenticated, `none`); otherwise `perform_sync("manual")`. -/
def sync_page (authed : Bool) (p : Provider) (selected : List String)
    (retention : Int) (today : PDate) : Option RunOutput :=
  if authed then some (perform_sync p selected retention today "manual")
  else none

/-! ### Configuration save (`save_config_api`, `app.py` lines 424-437)

The config file is a JSON object; we model it as an association list of
keys to JSON values (`CVal`).  `other` stands for any JSON value not
produced by this code path (the dict may carry foreign keys). -/

/-- A JSON value stored in the config object. -/
inductive CVal where
  | ids (l : List String)
  | int (n : Int)
  | str (s : String)
  | other (tag : Nat)
deriving DecidableEq, Repr

/-- A JSON object (Python dict), as stored in `config.json`. -/
def ConfigDict : Type := List (String × CVal)

/-- `DEFAULT_CONFIG` (`app.py` lines 42-45). -/
def DEFAULT_CONFIG : ConfigDict :=
  [("selected_mixes", .ids []), ("retention_days", .int 7)]

/-- `get_config()`: the stored dict, or a copy of the defaults when the
file is absent. -/
def get_config (store : Option ConfigDict) : ConfigDict :=
  store.getD DEFAULT_CONFIG

/-- The request body of `POST /api/config`: each key may be absent.
`retention_days`, when present, is the value after Python's `int(...)`
coercion applied by the handler. -/
structure ConfigRequest where
  selected_mixes : Option (List String)
  retention_days : Option Int
deriving DecidableEq, Repr

/-- `save_config_api` past the auth gate: read the current config, copy in
whichever of the two keys the request carries (clamping `retention_days` to
`[1, 365]`), and write the result back to `CONFIG_FILE`. -/
def save_config_api (store : Option ConfigDict) (data : ConfigRequest) :
    ConfigDict :=
  let config := get_config store
  let config := match data.selected_mixes with
    | some v => dictSet config "selected_mixes" (.ids v)
    | none => config
  let config := match data.retention_days with
    | some v => dictSet config "retention_days" (.int (max 1 (min 365 v)))
    | none => config
  config

/-! ### Spec-side definition for the refinement claim about retention

Transcribed from the specification's wording: "if the first 10 characters
parse as a valid ISO date AND positions 4 and 7 are `-` AND the description
contains \"Auto-synced\", and the parsed date is strictly earlier than
`today - retentionDays`, delete it". -/

/-- The specification's deletion-eligibility criterion for a playlist. -/
def specDeletionEligible (today : PDate) (retention : Int) (pl : Playlist) :
    Bool :=
  let cs := pl.name.toList
  decide (10 ≤ cs.length) &&
  decide (cs.getD 4 ' ' = '-') &&
  decide (cs.getD 7 ' ' = '-') &&
  (match parse10 (cs.take 10) with
   | some pd => decide ((dateOrd pd : Int) < (dateOrd today : Int) - retention)
   | none => false) &&
  strContains ((pl.description).getD "") "Auto-synced"

/-- Spec-side flattening of the categories page for the resolver claim:
all items, in category order then item order, that carry an id, paired with
that id. -/
def flattenWithIds (cats : List Category) : List (String × MixItem) :=
  cats.flatMap (fun cat =>
    match cat.items with
    | none => []
    | some items =>
      items.filterMap (fun it => it.id.map (fun i => (i, it))))

/-- Spec-side "last write wins": the last binding of `k` in `l`. -/
def lastBinding (l : List (String × MixItem)) (k : String) : Option MixItem :=
  (l.reverse.find? (fun q => decide (q.1 = k))).map (fun q => q.2)

/-! ## Lemmas about dictionaries -/

theorem dictGet_dictSet_self {α : Type} (d : List (String × α)) (k : String)
    (v : α) : dictGet (dictSet d k v) k = some v := by
  induction d with
  | nil => simp [dictSet, dictGet]
  | cons q rest ih =>
    by_cases h : q.1 = k
    · simp [dictSet, dictGet, h]
    · simp [dictSet, dictGet, h, ih]

theorem dictGet_dictSet_ne {α : Type} (d : List (String × α)) (k k' : String)
    (v : α) (h : k ≠ k') : dictGet (dictSet d k v) k' = dictGet d k' := by
  induction d with
  | nil => simp [dictSet, dictGet, h]
  | cons q rest ih =>
    by_cases hq : q.1 = k
    · simp [dictSet, dictGet, hq, h]
    · simp [dictSet, dictGet, hq, ih]

/-! ## Lemmas about dates and their rendering -/

theorem digitVal_digitChar (k : Nat) (h : k < 10) :
    digitVal (digitChar k) = some k := by
  interval_cases k <;> decide

theorem isoformat_toList (dt : PDate) :
    dt.isoformat.toList =
      pad4 dt.year ++ '-' :: pad2 dt.month ++ '-' :: pad2 dt.day := rfl

/-- `date.isoformat()` of a valid date has exactly ten characters. -/
theorem isoformat_length (dt : PDate) : dt.isoformat.toList.length = 10 := rfl

/-- Round trip: `fromisoformat` recovers a valid date from its
`isoformat` rendering. -/
theorem parse10_isoformat (dt : PDate) (h : dt.valid = true) :
    parse10 dt.isoformat.toList = some dt := by
  obtain ⟨y, m, d⟩ := dt
  simp only [PDate.valid, Bool.and_eq_true, decide_eq_true_eq] at h
  obtain ⟨⟨⟨⟨⟨h1, h2⟩, h3⟩, h4⟩, h5⟩, h6⟩ := h
  have e0 := digitVal_digitChar (y / 1000 % 10) (Nat.mod_lt _ (by norm_num))
  have e1 := digitVal_digitChar (y / 100 % 10) (Nat.mod_lt _ (by norm_num))
  have e2 := digitVal_digitChar (y / 10 % 10) (Nat.mod_lt _ (by norm_num))
  have e3 := digitVal_digitChar (y % 10) (Nat.mod_lt _ (by norm_num))
  have h31 : daysInMonth y m ≤ 31 := by
    unfold daysInMonth
    split <;> split <;> omega
  have e4 := digitVal_digitChar (m / 10) (by omega)
  have e5 := digitVal_digitChar (m % 10) (Nat.mod_lt _ (by norm_num))
  have e6 := digitVal_digitChar (d / 10) (by omega)
  have e7 := digitVal_digitChar (d % 10) (Nat.mod_lt _ (by norm_num))
  have hy : y / 1000 % 10 * 1000 + y / 100 % 10 * 100 + y / 10 % 10 * 10 +
      y % 10 = y := by omega
  have hm : m / 10 * 10 + m % 10 = m := by omega
  have hd : d / 10 * 10 + d % 10 = d := by omega
  simp only [isoformat_toList, pad4, pad2, List.cons_append, List.nil_append,
    parse10, e0, e1, e2, e3, e4, e5, e6, e7]
  simp only [hy, hm, hd]
  simp [h1, h3, h4, h5, h6]

/-! ## Lemmas about names and the deletion test -/

/-- Character data of the candidate name `f"{today} {title}"`. -/
theorem name_toList (a t : String) :
    (a ++ " " ++ t).toList = a.toList ++ ' ' :: t.toList := by
  show ((a ++ " ") ++ t).data = _
  rw [String.data_append, String.data_append, List.append_assoc]
  rfl

/-- A name whose first ten characters are today's `isoformat` rendering is
never deletion-eligible when the retention window is non-negative: its
parsed date equals today, and `today < today - retention` fails. -/
theorem shouldDelete_todayName (today : PDate) (retention : Int)
    (hv : today.valid = true) (hr : 0 ≤ retention)
    (pname : String) (rest : List Char)
    (hn : pname.toList = today.isoformat.toList ++ rest)
    (descr : Option String) (dr : PyRes Unit) :
    shouldDelete (runCutoff today retention) ⟨pname, descr, dr⟩ = false := by
  have hlen : 10 ≤ pname.toList.length := by
    rw [hn, List.length_append, isoformat_length]; omega
  have h4 : pname.toList.getD 4 ' ' = '-' := by rw [hn]; rfl
  have h7 : pname.toList.getD 7 ' ' = '-' := by rw [hn]; rfl
  have htake : pname.toList.take 10 = today.isoformat.toList := by
    rw [hn, ← isoformat_length today, List.take_left]
  have hparse : parse10 (pname.toList.take 10) = some today := by
    rw [htake]; exact parse10_isoformat today hv
  have hlt : ¬ ((dateOrd today : Int) < (dateOrd today : Int) - retention) := by
    omega
  simp only [shouldDelete, runCutoff]
  rw [if_pos ⟨hlen, h4, h7⟩, hparse]
  simp [hlt]

/-- A playlist whose first ten name characters do not parse as an ISO date
(in particular any name shorter than ten characters) is not
deletion-eligible. -/
theorem shouldDelete_malformed (cutoff : Int) (pl : Playlist)
    (h : parse10 (pl.name.toList.take 10) = none) :
    shouldDelete cutoff pl = false := by
  simp only [shouldDelete]
  split
  · rw [h]
  · rfl

/-- A too-short name never parses. -/
theorem parse10_short (cs : List Char) (h : cs.length < 10) :
    parse10 (cs.take 10) = none := by
  have hlen : (cs.take 10).length < 10 := by
    rw [List.length_take]; omega
  rcases e : cs.take 10 with _ | ⟨a, l⟩
  · rfl
  · rw [e] at hlen
    unfold parse10
    rcases l with _ | ⟨b, l⟩; · rfl
    rcases l with _ | ⟨c, l⟩; · rfl
    rcases l with _ | ⟨d, l⟩; · rfl
    rcases l with _ | ⟨e1, l⟩; · rfl
    rcases l with _ | ⟨f, l⟩; · rfl
    rcases l with _ | ⟨g, l⟩; · rfl
    rcases l with _ | ⟨h1, l⟩; · rfl
    rcases l with _ | ⟨i, l⟩; · rfl
    rcases l with _ | ⟨j, l⟩; · rfl
    simp at hlen
    omega

/-- The code's deletion test coincides with the specification's wording of
the eligibility criterion (refinement of the scan condition). -/
theorem shouldDelete_eq_spec (today : PDate) (retention : Int)
    (pl : Playlist) :
    shouldDelete (runCutoff today retention) pl =
      specDeletionEligible today retention pl := by
  simp only [shouldDelete, specDeletionEligible, runCutoff]
  by_cases hlen : 10 ≤ pl.name.toList.length
  · by_cases h4 : pl.name.toList.getD 4 ' ' = '-'
    · by_cases h7 : pl.name.toList.getD 7 ' ' = '-'
      · rw [if_pos ⟨hlen, h4, h7⟩, decide_eq_true hlen, decide_eq_true h4,
          decide_eq_true h7]
        simp only [Bool.true_and]
        rcases hp : parse10 (pl.name.toList.take 10) with _ | pd <;> rfl
      · rw [if_neg (fun hc => h7 hc.2.2), decide_eq_false h7]
        simp
    · rw [if_neg (fun hc => h4 hc.2.1), decide_eq_false h4]
      simp
  · rw [if_neg (fun hc => hlen hc.1), decide_eq_false hlen]
    simp

/-! ## Lemmas about the retention scan -/

/-- When every delete the scan attempts succeeds, the deleted names are
exactly the names of the playlists passing the deletion test, in order, and
the survivors are exactly the rest. -/
theorem retentionScan_ok (cutoff : Int) (pls : List Playlist)
    (h : ∀ pl ∈ pls, shouldDelete cutoff pl = true →
      pl.deleteResult = PyRes.ok ()) :
    (retentionScan cutoff pls).deleted =
      (pls.filter (fun pl => shouldDelete cutoff pl)).map
        (fun pl => pl.name) ∧
    (retentionScan cutoff pls).survivors =
      pls.filter (fun pl => ! shouldDelete cutoff pl) := by
  induction pls with
  | nil => exact ⟨rfl, rfl⟩
  | cons q rest ih =>
    have hrest := ih (fun pl hm hd => h pl (List.mem_cons_of_mem q hm) hd)
    by_cases hq : shouldDelete cutoff q = true
    · have hok := h q (List.mem_cons_self q rest) hq
      rw [retentionScan]
      simp [hq, hok, hrest.1, hrest.2]
    · rw [retentionScan]
      simp [hq, hrest.1, hrest.2, List.filter_cons,
        Bool.eq_false_iff.mpr hq]

/-- Every name the scan reports deleted belongs to a playlist of the
scanned list that passed the deletion test. -/
theorem retentionScan_sound (cutoff : Int) (pls : List Playlist)
    (n : String) (h : n ∈ (retentionScan cutoff pls).deleted) :
    ∃ pl, pl ∈ pls ∧ shouldDelete cutoff pl = true ∧ pl.name = n := by
  induction pls with
  | nil => simp [retentionScan] at h
  | cons q rest ih =>
    rw [retentionScan] at h
    by_cases hq : shouldDelete cutoff q = true
    · rcases hdel : q.deleteResult with _ | e
      · simp only [hq, if_true, hdel] at h
        rcases List.mem_cons.mp h with he | hm
        · exact ⟨q, (List.mem_cons_self q rest), hq, he.symm⟩
        · obtain ⟨pl, h1, h2, h3⟩ := ih hm
          exact ⟨pl, List.mem_cons_of_mem q h1, h2, h3⟩
      · simp [hq, hdel] at h
    · simp only [hq, if_false, Bool.false_eq_true] at h
      obtain ⟨pl, h1, h2, h3⟩ := ih (by simpa using h)
      exact ⟨pl, List.mem_cons_of_mem q h1, h2, h3⟩

/-- A playlist that fails the deletion test always survives the scan, even
when the scan is aborted by a failing delete. -/
theorem mem_survivors (cutoff : Int) (pls : List Playlist) (pl : Playlist)
    (hin : pl ∈ pls) (hnot : shouldDelete cutoff pl = false) :
    pl ∈ (retentionScan cutoff pls).survivors := by
  induction pls with
  | nil => simp at hin
  | cons q rest ih =>
    rw [retentionScan]
    rcases List.mem_cons.mp hin with he | hm
    · subst he
      simp only [hnot]
      simp [Bool.false_eq_true]
    · by_cases hq : shouldDelete cutoff q = true
      · rcases hdel : q.deleteResult with _ | e
        · simp only [hq, if_true, hdel]
          exact ih hm
        · simp only [hq, if_true, hdel]
          exact List.mem_cons_of_mem q hm
      · simp only [hq, Bool.false_eq_true, if_false]
        exact List.mem_cons_of_mem q (ih hm)

/-- When an eligible playlist's delete raises, the scan stops there: the
deleted names are exactly those of the eligible playlists located before
it. -/
theorem retentionScan_abort (cutoff : Int) (l1 : List Playlist)
    (plB : Playlist) (l2 : List Playlist) (e : String)
    (h1 : ∀ pl ∈ l1, shouldDelete cutoff pl = true →
      pl.deleteResult = PyRes.ok ())
    (hB : shouldDelete cutoff plB = true)
    (hBe : plB.deleteResult = PyRes.exn e) :
    (retentionScan cutoff (l1 ++ plB :: l2)).deleted =
      (l1.filter (fun pl => shouldDelete cutoff pl)).map
        (fun pl => pl.name) := by
  induction l1 with
  | nil =>
    rw [List.nil_append, retentionScan]
    simp [hB, hBe]
  | cons q rest ih =>
    have hrest := ih (fun pl hm hd => h1 pl (List.mem_cons_of_mem q hm) hd)
    rw [List.cons_append, retentionScan]
    by_cases hq : shouldDelete cutoff q = true
    · have hok := h1 q (List.mem_cons_self q rest) hq
      simp [hq, hok, hrest]
    · simp [hq, hrest, List.filter_cons, Bool.eq_false_iff.mpr hq]

/-! ## Lemmas about the per-mix loop -/

/-- The loop is a fold whose body does not read the accumulator except to
append: its unfolded form. -/
theorem createPhase_foldl (all : List (String × MixItem))
    (existing : List String) (todayStr : String) (selected : List String)
    (acc : CreateOut) :
    selected.foldl
      (fun acc mix_id =>
        let st := syncOneMix all existing todayStr mix_id
        { results := acc.results ++ [st.outcome],
          playlists := acc.playlists ++ st.created,
          calls := acc.calls ++ st.calls })
      acc =
      { results := acc.results ++ selected.map
          (fun mix_id => (syncOneMix all existing todayStr mix_id).outcome),
        playlists := acc.playlists ++ selected.flatMap
          (fun mix_id => (syncOneMix all existing todayStr mix_id).created),
        calls := acc.calls ++ selected.flatMap
          (fun mix_id => (syncOneMix all existing todayStr mix_id).calls) } := by
  induction selected generalizing acc with
  | nil => simp
  | cons q rest ih =>
    rw [List.foldl_cons, ih]
    simp

/-- The loop produces exactly one result entry per selected id, in
selection order. -/
theorem createPhase_results (all : List (String × MixItem))
    (existing : List String) (todayStr : String) (pls0 : List Playlist)
    (selected : List String) :
    (createPhase all existing todayStr pls0 selected).results =
      selected.map
        (fun mix_id => (syncOneMix all existing todayStr mix_id).outcome) := by
  unfold createPhase
  rw [createPhase_foldl]
  rfl

/-- The playlist state after the loop: the pre-run playlists followed by
everything created for the selected ids, in order. -/
theorem createPhase_playlists (all : List (String × MixItem))
    (existing : List String) (todayStr : String) (pls0 : List Playlist)
    (selected : List String) :
    (createPhase all existing todayStr pls0 selected).playlists =
      pls0 ++ selected.flatMap
        (fun mix_id => (syncOneMix all existing todayStr mix_id).created) := by
  unfold createPhase
  rw [createPhase_foldl]

/-- Every playlist created while processing a mix carries the candidate
name `f"{today} {title}"` and the fixed Auto-synced description. -/
theorem syncOneMix_created_shape (all : List (String × MixItem))
    (existing : List String) (todayStr : String) (mix_id : String)
    (pl : Playlist)
    (h : pl ∈ (syncOneMix all existing todayStr mix_id).created) :
    ∃ t, pl = ⟨todayStr ++ " " ++ t, some "Auto-synced from Tidal",
      PyRes.ok ()⟩ := by
  rcases hd : dictGet all mix_id with _ | mix
  · simp [syncOneMix, hd] at h
  · by_cases hc : (todayStr ++ " " ++ mix.title.getD "Mix") ∈ existing
    · simp [syncOneMix, hd, hc] at h
    · rcases hf : mix.fetchTracks with tracks | e
      · rcases hcr : mix.createResult with _ | e
        · rcases ha : mix.addResult with _ | e
          · rcases hfav : mix.favoriteResult with _ | e
            · simp [syncOneMix, hd, hc, hf, hcr, ha, hfav] at h
              exact ⟨mix.title.getD "Mix", by rw [h]⟩
            · simp [syncOneMix, hd, hc, hf, hcr, ha, hfav] at h
              exact ⟨mix.title.getD "Mix", by rw [h]⟩
          · simp [syncOneMix, hd, hc, hf, hcr, ha] at h
            exact ⟨mix.title.getD "Mix", by rw [h]⟩
        · simp [syncOneMix, hd, hc, hf, hcr] at h
      · simp [syncOneMix, hd, hc, hf] at h

/-- If the per-mix step reports `success`, then the mix resolved, the name
was fresh, every provider call succeeded, and exactly the announced
playlist was created. -/
theorem syncOneMix_success (all : List (String × MixItem))
    (existing : List String) (todayStr : String) (mix_id : String)
    (t n : String) (c : Nat)
    (h : (syncOneMix all existing todayStr mix_id).outcome =
      SyncResult.success t n c) :
    ∃ mix tracks, dictGet all mix_id = some mix ∧
      t = mix.title.getD "Mix" ∧ n = todayStr ++ " " ++ t ∧
      n ∉ existing ∧
      mix.fetchTracks = PyRes.ok tracks ∧ c = tracks.length ∧
      mix.createResult = PyRes.ok () ∧ mix.addResult = PyRes.ok () ∧
      mix.favoriteResult = PyRes.ok () ∧
      (syncOneMix all existing todayStr mix_id).created =
        [⟨n, some "Auto-synced from Tidal", PyRes.ok ()⟩] := by
  rcases hd : dictGet all mix_id with _ | mix
  · simp [syncOneMix, hd] at h
  · by_cases hc : (todayStr ++ " " ++ mix.title.getD "Mix") ∈ existing
    · simp [syncOneMix, hd, hc] at h
    · rcases hf : mix.fetchTracks with tracks | e
      · rcases hcr : mix.createResult with _ | e
        · rcases ha : mix.addResult with _ | e
          · rcases hfav : mix.favoriteResult with _ | e
            · have heq : syncOneMix all existing todayStr mix_id =
                  ⟨SyncResult.success (mix.title.getD "Mix")
                    (todayStr ++ " " ++ mix.title.getD "Mix") tracks.length,
                   [⟨todayStr ++ " " ++ mix.title.getD "Mix",
                     some "Auto-synced from Tidal", PyRes.ok ()⟩],
                   [ProviderCall.fetchTracks mix_id,
                    ProviderCall.createPlaylist
                      (todayStr ++ " " ++ mix.title.getD "Mix"),
                    ProviderCall.addTracks
                      (todayStr ++ " " ++ mix.title.getD "Mix"),
                    ProviderCall.favorite
                      (todayStr ++ " " ++ mix.title.getD "Mix")]⟩ := by
                simp [syncOneMix, hd, hc, hf, hcr, ha, hfav]
              rw [heq] at h
              injection h with ht hn hcnt
              subst ht
              subst hn
              subst hcnt
              exact ⟨mix, tracks, rfl, rfl, rfl, hc, hf, rfl, hcr, ha, hfav,
                by rw [heq]⟩
            · simp [syncOneMix, hd, hc, hf, hcr, ha, hfav] at h
          · simp [syncOneMix, hd, hc, hf, hcr, ha] at h
        · simp [syncOneMix, hd, hc, hf, hcr] at h
      · simp [syncOneMix, hd, hc, hf] at h

/-- If the candidate name is already among the existing names, the step
skips (the idempotency guard). -/
theorem syncOneMix_skipped (all : List (String × MixItem))
    (existing : List String) (todayStr : String) (mix_id : String)
    (mix : MixItem) (hd : dictGet all mix_id = some mix)
    (hc : (todayStr ++ " " ++ mix.title.getD "Mix") ∈ existing) :
    syncOneMix all existing todayStr mix_id =
      ⟨SyncResult.skipped (mix.title.getD "Mix")
        (todayStr ++ " " ++ mix.title.getD "Mix"), [], []⟩ := by
  simp [syncOneMix, hd, hc]

/-- A result entry is a `success` entry exactly when it has the `success`
shape. -/
theorem isSuccess_iff (r : SyncResult) :
    r.isSuccess = true ↔ ∃ t n c, r = SyncResult.success t n c := by
  cases r <;> simp [SyncResult.isSuccess]

/-! ## Lemmas about the whole run -/

/-- When both preconditions pass, `perform_sync` runs the create phase and
then the retention scan. -/
theorem perform_sync_run (p : Provider) (selected : List String)
    (retention : Int) (today : PDate) (trigger : String)
    (hs : p.sessionValid = true) (hne : selected ≠ []) :
    perform_sync p selected retention today trigger =
      { ret := RunRet.ok (runCreate p selected today).results
          (retentionScan (runCutoff today retention)
            (runCreate p selected today).playlists).deleted,
        status := save_sync_status trigger (runCreate p selected today).results
          (retentionScan (runCutoff today retention)
            (runCreate p selected today).playlists).deleted none,
        playlists := (retentionScan (runCutoff today retention)
          (runCreate p selected today).playlists).survivors,
        calls := ProviderCall.resolveCatalog :: ProviderCall.listPlaylists ::
          (runCreate p selected today).calls ++ ProviderCall.listPlaylists ::
          (retentionScan (runCutoff today retention)
            (runCreate p selected today).playlists).calls } := by
  simp [perform_sync, hs, hne]

/-- Every run persists exactly the trigger label it was invoked with. -/
theorem perform_sync_trigger (p : Provider) (selected : List String)
    (retention : Int) (today : PDate) (trigger : String) :
    (perform_sync p selected retention today trigger).status.trigger =
      trigger := by
  unfold perform_sync
  split
  · rfl
  split
  · rfl
  · rfl

/-- A playlist of the scanned state whose name carries today's date prefix
survives the retention scan of the same run. -/
theorem survivors_todayName (p : Provider) (selected : List String)
    (retention : Int) (today : PDate)
    (hv : today.valid = true) (hr : 0 ≤ retention) (pl : Playlist)
    (hin : pl ∈ (runCreate p selected today).playlists)
    (hshape : ∃ t, pl.name = today.isoformat ++ " " ++ t) :
    pl ∈ (retentionScan (runCutoff today retention)
      (runCreate p selected today).playlists).survivors := by
  obtain ⟨t, ht⟩ := hshape
  apply mem_survivors _ _ _ hin
  rcases pl with ⟨pname, descr, dr⟩
  have hdata : pname.toList = today.isoformat.toList ++ (' ' :: t.toList) := by
    rw [show pname = today.isoformat ++ " " ++ t from ht, name_toList]
  exact shouldDelete_todayName today retention hv hr pname _ hdata descr dr

/-! ## Lemmas about the catalog resolver -/

/-- Folding the per-item dict assignment over one category's items equals
folding over the id-bearing items only. -/
theorem itemsFold (items : List MixItem)
    (acc : List (String × MixItem)) :
    items.foldl
      (fun acc item =>
        match item.id with
        | none => acc
        | some i => dictSet acc i item)
      acc =
    (items.filterMap (fun it => it.id.map (fun i => (i, it)))).foldl
      (fun acc q => dictSet acc q.1 q.2) acc := by
  induction items generalizing acc with
  | nil => rfl
  | cons it its ih =>
    rcases hid : it.id with _ | i <;>
      simp [List.filterMap_cons, hid, ih]

/-- The resolver is the dict-assignment fold over the flattened id-bearing
items. -/
theorem resolveCatalog_eq_foldl (cats : List Category) :
    resolveCatalog cats =
      (flattenWithIds cats).foldl (fun acc q => dictSet acc q.1 q.2) [] := by
  suffices hgen : ∀ (cs : List Category) (acc : List (String × MixItem)),
      cs.foldl
        (fun acc cat =>
          match cat.items with
          | none => acc
          | some items =>
            items.foldl
              (fun acc item =>
                match item.id with
                | none => acc
                | some i => dictSet acc i item)
              acc)
        acc =
      (flattenWithIds cs).foldl (fun acc q => dictSet acc q.1 q.2) acc by
    exact hgen cats []
  intro cs
  induction cs with
  | nil => intro acc; rfl
  | cons c rest ih =>
    intro acc
    rw [List.foldl_cons]
    rcases hc : c.items with _ | items
    · simp only [flattenWithIds, List.flatMap_cons, hc]
      rw [List.foldl_append]
      exact ih acc
    · simp only [flattenWithIds, List.flatMap_cons, hc]
      rw [List.foldl_append, itemsFold]
      exact ih _

/-- Looking a key up in the dict built by assignment-folding gives the last
binding of that key, falling back to the initial dict. -/
theorem dictGet_foldl (l : List (String × MixItem))
    (acc : List (String × MixItem)) (k : String) :
    dictGet (l.foldl (fun a q => dictSet a q.1 q.2) acc) k =
      ((l.reverse.find? (fun q => decide (q.1 = k))).map
        (fun q => q.2)).or (dictGet acc k) := by
  induction l generalizing acc with
  | nil => simp
  | cons q l ih =>
    rw [List.foldl_cons, ih, List.reverse_cons, List.find?_append]
    rcases hfind : l.reverse.find? (fun q => decide (q.1 = k)) with _ | r
    · by_cases hk : q.1 = k
      · subst hk
        simp [hfind, dictGet_dictSet_self, List.find?]
      · simp [hfind, List.find?, hk, dictGet_dictSet_ne _ _ _ _ hk]
    · simp [hfind]

/-! ## Counting helpers (for the duplicate-name scenario) -/

theorem count_flatMap_one {α β : Type} (l : List α) (f : α → List β)
    (pr : β → Bool) (a : α) (ha : a ∈ l) :
    ((f a).filter pr).length ≤ ((l.flatMap f).filter pr).length := by
  induction l with
  | nil => simp at ha
  | cons x xs ih =>
    rw [List.flatMap_cons, List.filter_append, List.length_append]
    rcases List.mem_cons.mp ha with he | hm
    · subst he; omega
    · have := ih hm; omega

theorem count_flatMap_two {α β : Type} (l : List α) (f : α → List β)
    (pr : β → Bool) (a b : α) (ha : a ∈ l) (hb : b ∈ l) (hab : a ≠ b) :
    ((f a).filter pr).length + ((f b).filter pr).length ≤
      ((l.flatMap f).filter pr).length := by
  induction l with
  | nil => simp at ha
  | cons x xs ih =>
    rw [List.flatMap_cons, List.filter_append, List.length_append]
    rcases List.mem_cons.mp ha with hea | hma
    · rcases List.mem_cons.mp hb with heb | hmb
      · exact absurd (hea.trans heb.symm) hab
      · subst hea
        have := count_flatMap_one xs f pr b hmb
        omega
    · rcases List.mem_cons.mp hb with heb | hmb
      · subst heb
        have := count_flatMap_one xs f pr a hma
        omega
      · have := ih hma hmb
        omega

/-! ## Concrete fixtures used by the witnesses -/

/-- 2024-03-10, the "today" of the worked examples. -/
def exToday : PDate := ⟨2024, 3, 10⟩

/-- A mix whose processing fully succeeds. -/
def exMixA : MixItem :=
  ⟨some "a", some "Daily Discovery", .ok [1, 2, 3], .ok (), .ok (), .ok ()⟩

/-- A mix whose track fetch raises. -/
def exMixB : MixItem :=
  ⟨some "b", some "My Mix", .exn "boom", .ok (), .ok (), .ok ()⟩

/-- A second fully-succeeding mix sharing `exMixA`'s title. -/
def exMixC : MixItem :=
  ⟨some "c", some "Daily Discovery", .ok [4, 5], .ok (), .ok (), .ok ()⟩

/-- An expired engine snapshot (eight days old on 2024-03-10). -/
def exOldPl : Playlist :=
  ⟨"2024-03-02 Foo", some "Auto-synced from Tidal", .ok ()⟩

/-- A snapshot exactly at the seven-day boundary. -/
def exKeepPl : Playlist :=
  ⟨"2024-03-03 Foo", some "Auto-synced from Tidal", .ok ()⟩

/-- An old, date-prefixed playlist created by the user (no marker). -/
def exUserPl : Playlist := ⟨"2024-03-01 My Party Mix", none, .ok ()⟩

/-- A playlist whose name does not carry a date prefix. -/
def exMalformedPl : Playlist := ⟨"Favorites", some "mine", .ok ()⟩

/-- An expired snapshot whose delete call raises. -/
def exBadDeletePl : Playlist :=
  ⟨"2024-03-01 Bad", some "Auto-synced from Tidal", .exn "http 500"⟩

/-- The provider state of the worked examples. -/
def exProv : Provider :=
  ⟨true, [⟨some [exMixA, exMixB, exMixC]⟩],
   [exOldPl, exKeepPl, exUserPl, exMalformedPl]⟩

/-- A stored config carrying a foreign key. -/
def exStore : ConfigDict :=
  [("selected_mixes", .ids ["x"]), ("retention_days", .int 9),
   ("zz", .other 3)]

/-! ## The claims -/

/-- C9: the Mix Catalog Resolver flattens all categories' items in order
into one id-keyed mapping, silently skipping items lacking an id, with a
later colliding id overwriting an earlier one (last write wins), and no
collision causes a failure: looking any id up in the resolved catalog gives
exactly the last id-bearing item with that id in category-then-item
order. -/
theorem claim9_resolver_last_write_wins (cats : List Category) (k : String) :
    dictGet (resolveCatalog cats) k = lastBinding (flattenWithIds cats) k := by
  rw [resolveCatalog_eq_foldl, dictGet_foldl]
  simp [lastBinding, dictGet]

/-- C7: a config save whose update carries `retention_days = v` persists
`max 1 (min 365 v)`. -/
theorem claim7_retention_clamp (store : Option ConfigDict)
    (data : ConfigRequest) (v : Int) (h : data.retention_days = some v) :
    dictGet (save_config_api store data) "retention_days" =
      some (CVal.int (max 1 (min 365 v))) := by
  rcases hs : data.selected_mixes with _ | l <;>
    simp [save_config_api, h, hs, dictGet_dictSet_self]

/-- C7 witness: saving 0 persists 1 and saving 9000 persists 365. -/
theorem claim7_retention_clamp_witness :
    dictGet (save_config_api (some exStore) ⟨none, some 0⟩)
      "retention_days" = some (CVal.int 1) ∧
    dictGet (save_config_api (some exStore) ⟨none, some 9000⟩)
      "retention_days" = some (CVal.int 365) := by
  constructor
  · have h := claim7_retention_clamp (some exStore) ⟨none, some 0⟩ 0 rfl
    simpa using h
  · have h := claim7_retention_clamp (some exStore) ⟨none, some 9000⟩ 9000 rfl
    simpa using h

/-- C8: a config save overwrites exactly the fields present in the request;
absent fields and foreign keys keep their previously persisted values. -/
theorem claim8_config_frame (store : Option ConfigDict)
    (data : ConfigRequest) :
    (data.selected_mixes = none →
      dictGet (save_config_api store data) "selected_mixes" =
        dictGet (get_config store) "selected_mixes") ∧
    (data.retention_days = none →
      dictGet (save_config_api store data) "retention_days" =
        dictGet (get_config store) "retention_days") ∧
    (∀ l, data.selected_mixes = some l →
      dictGet (save_config_api store data) "selected_mixes" =
        some (CVal.ids l)) ∧
    (∀ v, data.retention_days = some v →
      dictGet (save_config_api store data) "retention_days" =
        some (CVal.int (max 1 (min 365 v)))) ∧
    (∀ k, k ≠ "selected_mixes" → k ≠ "retention_days" →
      dictGet (save_config_api store data) k =
        dictGet (get_config store) k) := by
  have hrs : ("retention_days" : String) ≠ "selected_mixes" := by decide
  have hsr : ("selected_mixes" : String) ≠ "retention_days" := by decide
  refine ⟨?_, ?_, ?_, ?_, ?_⟩
  · intro h
    rcases hr : data.retention_days with _ | v
    · simp [save_config_api, h, hr]
    · simp [save_config_api, h, hr, dictGet_dictSet_ne _ _ _ _ hrs]
  · intro h
    rcases hsm : data.selected_mixes with _ | l
    · simp [save_config_api, h, hsm]
    · simp [save_config_api, h, hsm, dictGet_dictSet_ne _ _ _ _ hsr]
  · intro l h
    rcases hr : data.retention_days with _ | v
    · simp [save_config_api, h, hr, dictGet_dictSet_self]
    · simp [save_config_api, h, hr, dictGet_dictSet_ne _ _ _ _ hrs,
        dictGet_dictSet_self]
  · intro v h
    rcases hsm : data.selected_mixes with _ | l <;>
      simp [save_config_api, h, hsm, dictGet_dictSet_self]
  · intro k hk1 hk2
    have hne1 : ∀ (d : ConfigDict) (w : CVal),
        dictGet (dictSet d "selected_mixes" w) k = dictGet d k :=
      fun d w => dictGet_dictSet_ne d _ k w (Ne.symm hk1)
    have hne2 : ∀ (d : ConfigDict) (w : CVal),
        dictGet (dictSet d "retention_days" w) k = dictGet d k :=
      fun d w => dictGet_dictSet_ne d _ k w (Ne.symm hk2)
    rcases hsm : data.selected_mixes with _ | l <;>
      rcases hr : data.retention_days with _ | v <;>
        simp [save_config_api, hsm, hr, hne1, hne2]

/-- C8 witness: with a stored config carrying a foreign key `"zz"`, a save
updating only `retention_days` keeps `selected_mixes` and `"zz"`. -/
theorem claim8_config_frame_witness :
    dictGet (save_config_api (some exStore) ⟨none, some 9000⟩)
      "selected_mixes" = some (CVal.ids ["x"]) ∧
    dictGet (save_config_api (some exStore) ⟨none, some 9000⟩)
      "zz" = some (CVal.other 3) := by
  have h := claim8_config_frame (some exStore) ⟨none, some 9000⟩
  constructor
  · have h1 := h.1 rfl
    simpa using h1
  · have h2 := h.2.2.2.2 "zz" (by decide) (by decide)
    simpa using h2

/-- C4 counterexample: the fatal reports carry the strings
`"Not connected to Tidal"` / `"No mixes selected"`, not the claim's
`"not connected"` / `"no mixes selected"`. -/
theorem claim4_counterexample :
    (perform_sync ⟨false, [], []⟩ ["a"] 7 exToday "manual").status.error ≠
      some "not connected" ∧
    (perform_sync ⟨true, [], []⟩ [] 7 exToday "manual").ret ≠
      RunRet.err "no mixes selected" := by decide

/-- C4 (amended): with an invalid capability, `perform_sync` short-circuits
and persists/returns a report with error `"Not connected to Tidal"`, and
with a valid capability but empty selection one with error
`"No mixes selected"`, in both cases with no per-mix outcomes, no
deletions, an unchanged playlist state and zero provider calls. -/
theorem claim4_fast_fail (p : Provider) (selected : List String)
    (retention : Int) (today : PDate) (trigger : String) :
    (p.sessionValid = false →
      perform_sync p selected retention today trigger =
        { ret := RunRet.err "Not connected to Tidal",
          status := save_sync_status trigger [] []
            (some "Not connected to Tidal"),
          playlists := p.playlists, calls := [] }) ∧
    (p.sessionValid = true → selected = [] →
      perform_sync p selected retention today trigger =
        { ret := RunRet.err "No mixes selected",
          status := save_sync_status trigger [] [] (some "No mixes selected"),
          playlists := p.playlists, calls := [] }) := by
  constructor
  · intro h
    simp [perform_sync, h, save_sync_status]
  · intro h he
    simp [perform_sync, h, he, save_sync_status]

/-- C4 witness: the two fast-fail paths on concrete states. -/
theorem claim4_fast_fail_witness :
    (perform_sync ⟨false, [], [exOldPl]⟩ ["a"] 7 exToday "manual").status.error
      = some "Not connected to Tidal" ∧
    (perform_sync ⟨false, [], [exOldPl]⟩ ["a"] 7 exToday "manual").playlists
      = [exOldPl] ∧
    (perform_sync ⟨false, [], [exOldPl]⟩ ["a"] 7 exToday "manual").calls
      = [] ∧
    (perform_sync ⟨true, [], [exOldPl]⟩ [] 7 exToday "manual").ret
      = RunRet.err "No mixes selected" ∧
    (perform_sync ⟨true, [], [exOldPl]⟩ [] 7 exToday "manual").calls = [] := by
  have h1 := (claim4_fast_fail ⟨false, [], [exOldPl]⟩ ["a"] 7 exToday
    "manual").1 rfl
  have h2 := (claim4_fast_fail ⟨true, [], [exOldPl]⟩ [] 7 exToday
    "manual").2 rfl rfl
  exact ⟨by rw [h1]; rfl, by rw [h1], by rw [h1],
    by rw [h2], by rw [h2]⟩

/-- C6 counterexample: the external-cron surface persists the trigger
string `"cron"`, which is none of `"manual"`, `"scheduled"`,
`"externalCron"`. -/
theorem claim6_counterexample :
    (cron_sync (some "sek") (some "sek") ⟨false, [], []⟩ [] 7 exToday).map
      (fun o => o.status.trigger) = some "cron" ∧
    ("cron" : String) ≠ "manual" ∧ ("cron" : String) ≠ "scheduled" ∧
    ("cron" : String) ≠ "externalCron" := by decide

/-- C6 (amended): whichever of the three trigger surfaces produced a run,
the persisted trigger is one of exactly `"manual"`, `"scheduled"`,
`"cron"`. -/
theorem claim6_trigger_values (p : Provider) (selected : List String)
    (retention : Int) (today : PDate) (cs key : Option String)
    (authed : Bool) (o : RunOutput)
    (h : sync_page authed p selected retention today = some o ∨
      o = run_scheduled_sync p selected retention today ∨
      cron_sync cs key p selected retention today = some o) :
    o.status.trigger = "manual" ∨ o.status.trigger = "scheduled" ∨
      o.status.trigger = "cron" := by
  rcases h with h | h | h
  · cases authed with
    | false => simp [sync_page] at h
    | true =>
      have h' : perform_sync p selected retention today "manual" = o :=
        Option.some.inj h
      exact Or.inl (h' ▸ perform_sync_trigger p selected retention today
        "manual")
  · exact Or.inr (Or.inl (h ▸ perform_sync_trigger p selected retention
      today "scheduled"))
  · rcases cs with _ | ck
    · simp [cron_sync] at h
    · by_cases hk : key = some ck
      · have h' : perform_sync p selected retention today "cron" = o := by
          simp [cron_sync, hk] at h
          exact h
        exact Or.inr (Or.inr (h' ▸ perform_sync_trigger p selected retention
          today "cron"))
      · simp [cron_sync, hk] at h

/-- C6 witness: the scheduled surface on a concrete state. -/
theorem claim6_trigger_values_witness :
    (run_scheduled_sync exProv ["a"] 7 exToday).status.trigger = "manual" ∨
    (run_scheduled_sync exProv ["a"] 7 exToday).status.trigger =
      "scheduled" ∨
    (run_scheduled_sync exProv ["a"] 7 exToday).status.trigger = "cron" :=
  claim6_trigger_values exProv ["a"] 7 exToday none none false _
    (Or.inr (Or.inl rfl))

/-- C1: in a run passing the preconditions and in which every attempted
delete succeeds, the retention scan deletes a playlist (recording its name
in the returned deleted list) exactly when the specification's criterion
holds of it: name of at least ten characters whose first ten parse as a
valid ISO date with `-` at positions 4 and 7, description containing
"Auto-synced", and parsed date strictly earlier than
`today - retentionDays`.  In particular a playlist lacking the marker is
never eligible, and a playlist dated exactly `today - retentionDays` is
retained. -/
theorem claim1_retention_criterion (p : Provider) (selected : List String)
    (retention : Int) (today : PDate) (trigger : String)
    (hs : p.sessionValid = true) (hne : selected ≠ [])
    (hdel : ∀ pl ∈ (runCreate p selected today).playlists,
      pl.deleteResult = PyRes.ok ()) :
    (perform_sync p selected retention today trigger).ret =
      RunRet.ok (runCreate p selected today).results
        (((runCreate p selected today).playlists.filter
          (fun pl => specDeletionEligible today retention pl)).map
          (fun pl => pl.name)) ∧
    (∀ pl ∈ (runCreate p selected today).playlists,
      strContains ((pl.description).getD "") "Auto-synced" = false →
      specDeletionEligible today retention pl = false) ∧
    (∀ (pl : Playlist) (pd : PDate),
      parse10 (pl.name.toList.take 10) = some pd →
      (dateOrd pd : Int) = (dateOrd today : Int) - retention →
      specDeletionEligible today retention pl = false) := by
  refine ⟨?_, ?_, ?_⟩
  · have hfun : (fun pl => shouldDelete (runCutoff today retention) pl) =
        (fun pl => specDeletionEligible today retention pl) :=
      funext (shouldDelete_eq_spec today retention)
    have h := (retentionScan_ok (runCutoff today retention)
      (runCreate p selected today).playlists (fun pl hm _ => hdel pl hm)).1
    rw [perform_sync_run p selected retention today trigger hs hne]
    show RunRet.ok (runCreate p selected today).results
      (retentionScan (runCutoff today retention)
        (runCreate p selected today).playlists).deleted = _
    rw [h, hfun]
  · intro pl _ hmark
    simp [specDeletionEligible, hmark]
  · intro pl pd hp heq
    have hlt : ¬ ((dateOrd pd : Int) < (dateOrd today : Int) - retention) := by
      omega
    simp only [specDeletionEligible]
    rw [hp]
    simp [hlt]

/-- C1 witness: on the worked example (today 2024-03-10, retention 7), the
run deletes exactly the eight-day-old marked snapshot; the seven-day-old
one, the unmarked user playlist and the malformed name survive. -/
theorem claim1_retention_criterion_witness :
    (perform_sync exProv ["a"] 7 exToday "manual").ret =
      RunRet.ok
        [SyncResult.success "Daily Discovery" "2024-03-10 Daily Discovery" 3]
        ["2024-03-02 Foo"] := by
  have h := (claim1_retention_criterion exProv ["a"] 7 exToday "manual" rfl
    (by decide) (by decide)).1
  rw [h]
  decide

/-- C3: when the preconditions pass, the report holds exactly one outcome
per selected mix id, in selection order, each outcome depending only on
that id's own processing; and any exception raised during track fetch,
creation, population or favoriting of one mix becomes a `failed` outcome
carrying that error's message (so later ids are unaffected). -/
theorem claim3_isolation_order (p : Provider) (selected : List String)
    (retention : Int) (today : PDate) (trigger : String)
    (hs : p.sessionValid = true) (hne : selected ≠ []) :
    (perform_sync p selected retention today trigger).status.results.length =
      selected.length ∧
    (∀ k : Nat,
      (perform_sync p selected retention today trigger).status.results[k]? =
        (selected[k]?).map (fun mix_id =>
          (syncOneMix (runCatalog p) (runExisting p) today.isoformat
            mix_id).outcome)) ∧
    (∀ (mix_id : String) (mix : MixItem) (e : String),
      dictGet (runCatalog p) mix_id = some mix →
      (today.isoformat ++ " " ++ mix.title.getD "Mix") ∉ runExisting p →
      (mix.fetchTracks = PyRes.exn e ∨
       (∃ ts, mix.fetchTracks = PyRes.ok ts ∧
         mix.createResult = PyRes.exn e) ∨
       (∃ ts, mix.fetchTracks = PyRes.ok ts ∧
         mix.createResult = PyRes.ok () ∧ mix.addResult = PyRes.exn e) ∨
       (∃ ts, mix.fetchTracks = PyRes.ok ts ∧
         mix.createResult = PyRes.ok () ∧ mix.addResult = PyRes.ok () ∧
         mix.favoriteResult = PyRes.exn e)) →
      (syncOneMix (runCatalog p) (runExisting p) today.isoformat
        mix_id).outcome = SyncResult.failed mix_id e) := by
  have hres : (perform_sync p selected retention today
      trigger).status.results =
      selected.map (fun mix_id =>
        (syncOneMix (runCatalog p) (runExisting p) today.isoformat
          mix_id).outcome) := by
    rw [perform_sync_run p selected retention today trigger hs hne]
    show (runCreate p selected today).results = _
    unfold runCreate
    exact createPhase_results _ _ _ _ _
  refine ⟨?_, ?_, ?_⟩
  · rw [hres, List.length_map]
  · intro k
    rw [hres, List.getElem?_map]
  · intro mix_id mix e hd hnm herr
    rcases herr with h1 | ⟨ts, h1, h2⟩ | ⟨ts, h1, h2, h3⟩ |
      ⟨ts, h1, h2, h3, h4⟩ <;>
      simp [syncOneMix, hd, hnm, h1, *]

/-- C3 witness: mix "b" fails its track fetch, mix "a" still succeeds, id
"zz" is absent from the catalog; the outcomes appear in selection order. -/
theorem claim3_isolation_order_witness :
    (perform_sync exProv ["b", "a", "zz"] 7 exToday
      "manual").status.results.length = 3 ∧
    (perform_sync exProv ["b", "a", "zz"] 7 exToday
      "manual").status.results[0]? =
      some (SyncResult.failed "b" "boom") ∧
    (perform_sync exProv ["b", "a", "zz"] 7 exToday
      "manual").status.results[1]? =
      some (SyncResult.success "Daily Discovery"
        "2024-03-10 Daily Discovery" 3) ∧
    (perform_sync exProv ["b", "a", "zz"] 7 exToday
      "manual").status.results[2]? =
      some (SyncResult.notFound "zz") := by
  have h := claim3_isolation_order exProv ["b", "a", "zz"] 7 exToday
    "manual" rfl (by decide)
  refine ⟨by rw [h.1]; rfl, ?_, ?_, ?_⟩
  · rw [h.2.1 0]
    decide
  · rw [h.2.1 1]
    decide
  · rw [h.2.1 2]
    decide

/-- C5: the retention scan never fails the run.  A playlist with a short or
unparsable name prefix is skipped and the scan continues; a delete that
raises aborts only the rest of the scan, keeping the names already deleted;
and in every precondition-passing run the creation outcomes are reported
unchanged with no top-level error. -/
theorem claim5_scan_safe (p : Provider) (selected : List String)
    (retention : Int) (today : PDate) (trigger : String)
    (hs : p.sessionValid = true) (hne : selected ≠ []) :
    (∀ (cutoff : Int) (pl : Playlist) (rest : List Playlist),
      (pl.name.toList.length < 10 ∨
        parse10 (pl.name.toList.take 10) = none) →
      retentionScan cutoff (pl :: rest) =
        { survivors := pl :: (retentionScan cutoff rest).survivors,
          deleted := (retentionScan cutoff rest).deleted,
          calls := (retentionScan cutoff rest).calls,
          aborted := (retentionScan cutoff rest).aborted }) ∧
    (∀ (l1 : List Playlist) (plB : Playlist) (l2 : List Playlist)
        (e : String),
      (runCreate p selected today).playlists = l1 ++ plB :: l2 →
      (∀ pl ∈ l1, shouldDelete (runCutoff today retention) pl = true →
        pl.deleteResult = PyRes.ok ()) →
      shouldDelete (runCutoff today retention) plB = true →
      plB.deleteResult = PyRes.exn e →
      (perform_sync p selected retention today trigger).ret =
        RunRet.ok (runCreate p selected today).results
          ((l1.filter (fun pl =>
            shouldDelete (runCutoff today retention) pl)).map
            (fun pl => pl.name)) ∧
      (perform_sync p selected retention today trigger).status.error =
        none) ∧
    ((perform_sync p selected retention today trigger).ret =
        RunRet.ok (runCreate p selected today).results
          (retentionScan (runCutoff today retention)
            (runCreate p selected today).playlists).deleted ∧
      (perform_sync p selected retention today trigger).status.error =
        none ∧
      (perform_sync p selected retention today trigger).status.results =
        (runCreate p selected today).results) := by
  refine ⟨?_, ?_, ?_⟩
  · intro cutoff pl rest hmal
    have hsd : shouldDelete cutoff pl = false := by
      rcases hmal with hlen | hp
      · exact shouldDelete_malformed _ _ (parse10_short _ hlen)
      · exact shouldDelete_malformed _ _ hp
    rw [retentionScan]
    simp [hsd]
  · intro l1 plB l2 e hsplit h1 hB hBe
    have habort := retentionScan_abort (runCutoff today retention) l1 plB
      l2 e h1 hB hBe
    rw [perform_sync_run p selected retention today trigger hs hne]
    constructor
    · show RunRet.ok (runCreate p selected today).results
        (retentionScan (runCutoff today retention)
          (runCreate p selected today).playlists).deleted = _
      rw [hsplit, habort]
    · rfl
  · rw [perform_sync_run p selected retention today trigger hs hne]
    exact ⟨rfl, rfl, rfl⟩

/-- The provider state of the failing-delete example: a malformed name,
then a deletable expired snapshot, then an expired snapshot whose delete
raises, then an old user playlist. -/
def exProvBad : Provider :=
  ⟨true, [⟨some [exMixA]⟩],
   [exMalformedPl, exOldPl, exBadDeletePl, exUserPl]⟩

/-- C5 witness: with a failing delete mid-scan, the run still returns the
creation outcome, reports no error, and the deleted list holds exactly the
names deleted before the exception. -/
theorem claim5_scan_safe_witness :
    (perform_sync exProvBad ["a"] 7 exToday "manual").ret =
      RunRet.ok
        [SyncResult.success "Daily Discovery" "2024-03-10 Daily Discovery" 3]
        ["2024-03-02 Foo"] ∧
    (perform_sync exProvBad ["a"] 7 exToday "manual").status.error =
      none := by
  have h := (claim5_scan_safe exProvBad ["a"] 7 exToday "manual" rfl
    (by decide)).2.1 [exMalformedPl, exOldPl] exBadDeletePl
    [exUserPl, ⟨"2024-03-10 Daily Discovery", some "Auto-synced from Tidal",
      PyRes.ok ()⟩] "http 500" (by decide) (by decide) (by decide)
    (by decide)
  obtain ⟨h1, h2⟩ := h
  constructor
  · rw [h1]
    decide
  · exact h2

/-- C10: the duplicate-name guard consults only the pre-loop snapshot of
existing names and is never updated during the run: when two distinct
selected ids resolve to descriptors with the same title, their shared
candidate name is fresh, and both process cleanly, both are recorded as
created and two playlists bearing the identical name come into existence
within the single run (none having existed before it). -/
theorem claim10_duplicate_names (p : Provider) (selected : List String)
    (retention : Int) (today : PDate) (trigger : String)
    (hs : p.sessionValid = true) (hne : selected ≠ [])
    (a b : String) (ha : a ∈ selected) (hb : b ∈ selected) (hab : a ≠ b)
    (ma mb : MixItem) (tsa tsb : List Nat)
    (hma : dictGet (runCatalog p) a = some ma)
    (hmb : dictGet (runCatalog p) b = some mb)
    (htitle : mb.title.getD "Mix" = ma.title.getD "Mix")
    (hfresh : (today.isoformat ++ " " ++ ma.title.getD "Mix") ∉
      runExisting p)
    (hfa : ma.fetchTracks = PyRes.ok tsa)
    (hca : ma.createResult = PyRes.ok ())
    (haa : ma.addResult = PyRes.ok ())
    (hva : ma.favoriteResult = PyRes.ok ())
    (hfb : mb.fetchTracks = PyRes.ok tsb)
    (hcb : mb.createResult = PyRes.ok ())
    (hab2 : mb.addResult = PyRes.ok ())
    (hvb : mb.favoriteResult = PyRes.ok ()) :
    (∀ k : Nat, selected[k]? = some a →
      (perform_sync p selected retention today trigger).status.results[k]? =
        some (SyncResult.success (ma.title.getD "Mix")
          (today.isoformat ++ " " ++ ma.title.getD "Mix") tsa.length)) ∧
    (∀ k : Nat, selected[k]? = some b →
      (perform_sync p selected retention today trigger).status.results[k]? =
        some (SyncResult.success (mb.title.getD "Mix")
          (today.isoformat ++ " " ++ ma.title.getD "Mix") tsb.length)) ∧
    2 ≤ ((runCreate p selected today).playlists.filter
      (fun pl =>
        pl.name == today.isoformat ++ " " ++ ma.title.getD "Mix")).length ∧
    (p.playlists.filter
      (fun pl =>
        pl.name == today.isoformat ++ " " ++ ma.title.getD "Mix")).length
      = 0 := by
  have hres : (perform_sync p selected retention today
      trigger).status.results =
      selected.map (fun mix_id =>
        (syncOneMix (runCatalog p) (runExisting p) today.isoformat
          mix_id).outcome) := by
    rw [perform_sync_run p selected retention today trigger hs hne]
    show (runCreate p selected today).results = _
    unfold runCreate
    exact createPhase_results _ _ _ _ _
  have hga : (syncOneMix (runCatalog p) (runExisting p) today.isoformat
      a).created =
      [⟨today.isoformat ++ " " ++ ma.title.getD "Mix",
        some "Auto-synced from Tidal", PyRes.ok ()⟩] := by
    simp [syncOneMix, hma, hfresh, hfa, hca, haa, hva]
  have hgb : (syncOneMix (runCatalog p) (runExisting p) today.isoformat
      b).created =
      [⟨today.isoformat ++ " " ++ ma.title.getD "Mix",
        some "Auto-synced from Tidal", PyRes.ok ()⟩] := by
    simp [syncOneMix, hmb, htitle, hfresh, hfb, hcb, hab2, hvb]
  have hzero : (p.playlists.filter
      (fun pl =>
        pl.name == today.isoformat ++ " " ++ ma.title.getD "Mix")).length
      = 0 := by
    rw [List.length_eq_zero, List.filter_eq_nil_iff]
    intro pl hm hbeq
    exact hfresh (beq_iff_eq.mp hbeq ▸
      List.mem_map_of_mem (fun pl => pl.name) hm)
  refine ⟨?_, ?_, ?_, hzero⟩
  · intro k hk
    rw [hres, List.getElem?_map, hk]
    simp [syncOneMix, hma, hfresh, hfa, hca, haa, hva]
  · intro k hk
    rw [hres, List.getElem?_map, hk]
    simp [syncOneMix, hmb, htitle, hfresh, hfb, hcb, hab2, hvb]
  · have hcount := count_flatMap_two selected
      (fun mix_id => (syncOneMix (runCatalog p) (runExisting p)
        today.isoformat mix_id).created)
      (fun pl =>
        pl.name == today.isoformat ++ " " ++ ma.title.getD "Mix")
      a b ha hb hab
    simp only [hga, hgb] at hcount
    simp only [List.filter_cons, beq_self_eq_true, if_true,
      List.filter_nil, List.length_cons, List.length_nil] at hcount
    unfold runCreate
    rw [createPhase_playlists, List.filter_append, List.length_append,
      hzero]
    omega

/-- C10 witness: ids "a" and "c" both resolve to title "Daily Discovery";
one run records both as created and produces two playlists named
"2024-03-10 Daily Discovery". -/
theorem claim10_duplicate_names_witness :
    (perform_sync exProv ["a", "c"] 7 exToday "manual").status.results[0]? =
      some (SyncResult.success "Daily Discovery"
        "2024-03-10 Daily Discovery" 3) ∧
    (perform_sync exProv ["a", "c"] 7 exToday "manual").status.results[1]? =
      some (SyncResult.success "Daily Discovery"
        "2024-03-10 Daily Discovery" 2) ∧
    2 ≤ ((runCreate exProv ["a", "c"] exToday).playlists.filter
      (fun pl => pl.name == "2024-03-10 Daily Discovery")).length := by
  have h := claim10_duplicate_names exProv ["a", "c"] 7 exToday "manual"
    rfl (by decide) "a" "c" (by decide) (by decide) (by decide)
    exMixA exMixC [1, 2, 3] [4, 5] (by decide) (by decide) rfl (by decide)
    rfl rfl rfl rfl rfl rfl rfl rfl
  exact ⟨h.1 0 rfl, h.2.1 1 rfl, h.2.2.1⟩

/-- C2: idempotence.  A second run on the provider state the first run left
behind (same catalog, same non-empty selection, same day, retention within
its documented non-negative range) produces zero `created` outcomes, one
outcome per selected id, and a `skipped "already exists"` outcome at every
position where the first run succeeded — because the candidate name is by
then among the existing playlist names fetched at the start of the second
run. -/
theorem claim2_idempotent (p p2 : Provider) (selected : List String)
    (retention : Int) (today : PDate) (trig1 trig2 : String)
    (hs : p.sessionValid = true) (hne : selected ≠ [])
    (hv : today.valid = true) (hr : 0 ≤ retention)
    (hs2 : p2.sessionValid = true)
    (hcat : p2.categories = p.categories)
    (hpl : p2.playlists =
      (perform_sync p selected retention today trig1).playlists) :
    (∀ r ∈ (perform_sync p2 selected retention today trig2).status.results,
      r.isSuccess = false) ∧
    (perform_sync p2 selected retention today trig2).status.results.length =
      selected.length ∧
    (∀ (k : Nat) (t n : String) (c : Nat),
      (perform_sync p selected retention today trig1).status.results[k]? =
        some (SyncResult.success t n c) →
      (perform_sync p2 selected retention today trig2).status.results[k]? =
        some (SyncResult.skipped t n)) := by
  have hall2 : runCatalog p2 = runCatalog p := by
    unfold runCatalog
    rw [hcat]
  have hres1 : (perform_sync p selected retention today
      trig1).status.results =
      selected.map (fun mix_id =>
        (syncOneMix (runCatalog p) (runExisting p) today.isoformat
          mix_id).outcome) := by
    rw [perform_sync_run p selected retention today trig1 hs hne]
    show (runCreate p selected today).results = _
    unfold runCreate
    exact createPhase_results _ _ _ _ _
  have hres2 : (perform_sync p2 selected retention today
      trig2).status.results =
      selected.map (fun mix_id =>
        (syncOneMix (runCatalog p) (runExisting p2) today.isoformat
          mix_id).outcome) := by
    rw [perform_sync_run p2 selected retention today trig2 hs2 hne]
    show (runCreate p2 selected today).results = _
    unfold runCreate
    rw [hall2]
    exact createPhase_results _ _ _ _ _
  have hpl1 : (perform_sync p selected retention today trig1).playlists =
      (retentionScan (runCutoff today retention)
        (runCreate p selected today).playlists).survivors := by
    rw [perform_sync_run p selected retention today trig1 hs hne]
  have hmem2 : ∀ pl : Playlist,
      pl ∈ (runCreate p selected today).playlists →
      (∃ t, pl.name = today.isoformat ++ " " ++ t) →
      pl.name ∈ runExisting p2 := by
    intro pl hin hshape
    have hsurv := survivors_todayName p selected retention today hv hr pl
      hin hshape
    show pl.name ∈ p2.playlists.map (fun q => q.name)
    rw [hpl, hpl1]
    exact List.mem_map_of_mem _ hsurv
  have hpre2 : ∀ t : String,
      (today.isoformat ++ " " ++ t) ∈ runExisting p →
      (today.isoformat ++ " " ++ t) ∈ runExisting p2 := by
    intro t hmem
    have hmem' : (today.isoformat ++ " " ++ t) ∈
        p.playlists.map (fun q => q.name) := hmem
    obtain ⟨pl, hplmem, hpln⟩ := List.mem_map.mp hmem'
    have hin : pl ∈ (runCreate p selected today).playlists := by
      unfold runCreate
      rw [createPhase_playlists]
      exact List.mem_append_left _ hplmem
    have hfin := hmem2 pl hin ⟨t, hpln⟩
    rw [hpln] at hfin
    exact hfin
  have hcreated2 : ∀ id ∈ selected, ∀ pl : Playlist,
      pl ∈ (syncOneMix (runCatalog p) (runExisting p) today.isoformat
        id).created →
      pl.name ∈ runExisting p2 := by
    intro id hid pl hplc
    have hin : pl ∈ (runCreate p selected today).playlists := by
      unfold runCreate
      rw [createPhase_playlists]
      exact List.mem_append_right _ (List.mem_flatMap.mpr ⟨id, hid, hplc⟩)
    obtain ⟨t, hplsh⟩ := syncOneMix_created_shape _ _ _ _ _ hplc
    exact hmem2 pl hin ⟨t, by rw [hplsh]⟩
  have hsucc2 : ∀ id ∈ selected, ∀ (t n : String) (c : Nat),
      (syncOneMix (runCatalog p) (runExisting p) today.isoformat
        id).outcome = SyncResult.success t n c →
      n ∈ runExisting p2 := by
    intro id hid t n c hout
    obtain ⟨mix, tracks, hd, ht, hn, hnn, hf', hc', hcr', ha', hfav',
      hcre⟩ := syncOneMix_success _ _ _ _ _ _ _ hout
    have hplin : (⟨n, some "Auto-synced from Tidal", PyRes.ok ()⟩ :
        Playlist) ∈ (syncOneMix (runCatalog p) (runExisting p)
          today.isoformat id).created := by
      rw [hcre]
      exact List.mem_singleton.mpr rfl
    have hfin := hcreated2 id hid _ hplin
    simpa using hfin
  have hnosucc : ∀ id ∈ selected,
      (syncOneMix (runCatalog p) (runExisting p2) today.isoformat
        id).outcome.isSuccess = false := by
    intro id hid
    cases hS : (syncOneMix (runCatalog p) (runExisting p2) today.isoformat
        id).outcome.isSuccess with
    | false => rfl
    | true =>
      exfalso
      obtain ⟨t, n, c, hout⟩ := (isSuccess_iff _).mp hS
      obtain ⟨mix, tracks, hd, ht, hn, hn2, hf', hc', hcr', ha', hfav',
        _⟩ := syncOneMix_success _ _ _ _ _ _ _ hout
      by_cases hx1 : n ∈ runExisting p
      · rw [hn] at hx1 hn2
        exact hn2 (hpre2 t hx1)
      · have hx1' : (today.isoformat ++ " " ++ mix.title.getD "Mix") ∉
            runExisting p := by
          rw [ht] at hn
          rw [hn] at hx1
          exact hx1
        have hout1 : (syncOneMix (runCatalog p) (runExisting p)
            today.isoformat id).outcome =
            SyncResult.success (mix.title.getD "Mix")
              (today.isoformat ++ " " ++ mix.title.getD "Mix")
              tracks.length := by
          simp [syncOneMix, hd, hx1', hf', hcr', ha', hfav']
        have hfin := hsucc2 id hid _ _ _ hout1
        rw [hn, ht] at hn2
        exact hn2 hfin
  refine ⟨?_, ?_, ?_⟩
  · intro r hr2
    rw [hres2] at hr2
    obtain ⟨id, hid, hfid⟩ := List.mem_map.mp hr2
    rw [← hfid]
    exact hnosucc id hid
  · rw [hres2, List.length_map]
  · intro k t n c h1k
    rw [hres1, List.getElem?_map] at h1k
    rcases hsel : selected[k]? with _ | id
    · rw [hsel] at h1k
      simp at h1k
    · rw [hsel] at h1k
      have hf1 : (syncOneMix (runCatalog p) (runExisting p) today.isoformat
          id).outcome = SyncResult.success t n c := Option.some.inj h1k
      have hid : id ∈ selected := List.getElem?_mem hsel
      obtain ⟨mix, tracks, hd, ht, hn, hn1, hf', hc', hcr', ha', hfav',
        hcre⟩ := syncOneMix_success _ _ _ _ _ _ _ hf1
      have hnmem : n ∈ runExisting p2 := hsucc2 id hid t n c hf1
      have hcmem : (today.isoformat ++ " " ++ mix.title.getD "Mix") ∈
          runExisting p2 := by
        rw [← ht, ← hn]
        exact hnmem
      have hskip := syncOneMix_skipped (runCatalog p) (runExisting p2)
        today.isoformat id mix hd hcmem
      have hout2 : (syncOneMix (runCatalog p) (runExisting p2)
          today.isoformat id).outcome = SyncResult.skipped t n := by
        rw [hskip, ← ht, ← hn]
      rw [hres2, List.getElem?_map, hsel]
      simp [hout2]

/-- C2 witness: re-running the worked example on the state the first run
left behind skips the previously created snapshot, creates nothing, and
reproduces the per-mix structure. -/
theorem claim2_idempotent_witness :
    (∀ r ∈ (perform_sync
        ⟨true, exProv.categories,
          (perform_sync exProv ["a", "b"] 7 exToday
            "manual").playlists⟩
        ["a", "b"] 7 exToday "manual").status.results,
      r.isSuccess = false) ∧
    (perform_sync
        ⟨true, exProv.categories,
          (perform_sync exProv ["a", "b"] 7 exToday
            "manual").playlists⟩
        ["a", "b"] 7 exToday "manual").status.results[0]? =
      some (SyncResult.skipped "Daily Discovery"
        "2024-03-10 Daily Discovery") := by
  have h := claim2_idempotent exProv
    ⟨true, exProv.categories,
      (perform_sync exProv ["a", "b"] 7 exToday "manual").playlists⟩
    ["a", "b"] 7 exToday "manual" "manual" rfl (by decide) (by decide)
    (by decide) rfl rfl rfl
  exact ⟨h.1, h.2.2 0 "Daily Discovery" "2024-03-10 Daily Discovery" 3
    (by decide)⟩

end TidalDD
